import Mathlib

/-!
Verification development for the Business Intelligence Dashboard
(`data_processor.py`, `utils.py`, `insights.py`).

The pandas `DataFrame` is modelled shallowly: a list of named, typed
columns together with a list of labelled rows.  Numeric cells are
rationals, datetime cells are integers (ordinal timestamps), missing
cells are an explicit `na` value.  Each Python function of the
repository is translated to a Lean function of the same name; the
`None`-table case is modelled by `Option DataFrame`, with a `...Core`
function for the non-`None` body.
-/

namespace BIDash

/-- The pandas dtype classes that the dashboard code distinguishes,
via `select_dtypes` / `pd.api.types` checks: `number`, `object`,
`category`, `datetime`, and anything else. -/
inductive Dtype where
  | numeric
  | object
  | category
  | datetime
  | other
deriving DecidableEq, Repr

/-- A cell of a DataFrame: missing (`NaN`/`NaT`), a number, a string,
or a datetime (as an ordinal). -/
inductive Val where
  | na
  | num (q : ℚ)
  | str (s : String)
  | date (d : Int)
deriving DecidableEq, Repr

/-- A pandas DataFrame: ordered named columns with dtypes, and rows
carrying their index label and one cell per column. -/
structure DataFrame where
  cols : List (String × Dtype)
  rows : List (Nat × List Val)
deriving DecidableEq, Repr

/-- The column names of a DataFrame, in order (`data.columns`). -/
def DataFrame.colNames (df : DataFrame) : List String :=
  df.cols.map Prod.fst

/-- The dtype of the (first) column with the given name, if present. -/
def colDtype (df : DataFrame) (column : String) : Option Dtype :=
  (df.cols.find? (fun p => p.1 == column)).map Prod.snd

/-- Position of the named column (`df.cols.length` when absent). -/
def colIdx (df : DataFrame) (column : String) : Nat :=
  df.cols.findIdx (fun p => p.1 == column)

/-- Cell of a row at column position `j`; short rows read as missing. -/
def cellAt (r : Nat × List Val) (j : Nat) : Val :=
  r.2.getD j Val.na

/-- Boolean-mask row selection `data[mask]`: keep the rows satisfying
the predicate, preserving labels, cells, and the column schema. -/
def filterRows (df : DataFrame) (p : Nat × List Val → Bool) : DataFrame :=
  { df with rows := df.rows.filter p }

/-- `data[column] >= min` on one cell: `True` only for a number that is
at least the bound (pandas comparisons with `NaN` are `False`). -/
def numGe (v : Val) (a : ℚ) : Bool :=
  match v with
  | Val.num q => a ≤ q
  | _ => false

/-- `data[column] <= max` on one cell. -/
def numLe (v : Val) (b : ℚ) : Bool :=
  match v with
  | Val.num q => q ≤ b
  | _ => false

/-- `numeric_filter` body on a present table (`data_processor.py`
lines 116-129): if the column is absent or not numeric, return the
table unchanged; then mask by `>= min`, `<= max`, or both; with both
bounds absent return the table unchanged. -/
def numericFilterCore (df : DataFrame) (column : String)
    (min max : Option ℚ) : DataFrame :=
  if colDtype df column ≠ some Dtype.numeric then df
  else
    match min, max with
    | some a, some b =>
        filterRows df (fun r => numGe (cellAt r (colIdx df column)) a
                             && numLe (cellAt r (colIdx df column)) b)
    | some a, none =>
        filterRows df (fun r => numGe (cellAt r (colIdx df column)) a)
    | none, some b =>
        filterRows df (fun r => numLe (cellAt r (colIdx df column)) b)
    | none, none => df

/-- `numeric_filter(data, column, min, max)`: a `None` table is
returned unchanged. -/
def numeric_filter (data : Option DataFrame) (column : String)
    (min max : Option ℚ) : Option DataFrame :=
  data.map (fun df => numericFilterCore df column min max)

/-- `data[column].isin(selected_categories)` on one cell: membership
for string cells, `False` for anything else (in particular `NaN`). -/
def valIsin (v : Val) (sel : List String) : Bool :=
  match v with
  | Val.str s => sel.contains s
  | _ => false

/-- `categorical_filter` body on a present table (`data_processor.py`
lines 143-150): requires a categorical or object column; an empty
selection keeps the table unchanged. -/
def categoricalFilterCore (df : DataFrame) (column : String)
    (selected : List String) : DataFrame :=
  if ¬(colDtype df column = some Dtype.category ∨
       colDtype df column = some Dtype.object) then df
  else if selected.length > 0 then
    filterRows df (fun r => valIsin (cellAt r (colIdx df column)) selected)
  else df

/-- `categorical_filter(data, column, selected_categories)`. -/
def categorical_filter (data : Option DataFrame) (column : String)
    (selected : List String) : Option DataFrame :=
  data.map (fun df => categoricalFilterCore df column selected)

/-- `data[column] >= start_date` on one cell. -/
def dateGe (v : Val) (a : Int) : Bool :=
  match v with
  | Val.date d => a ≤ d
  | _ => false

/-- `data[column] <= end_date` on one cell. -/
def dateLe (v : Val) (b : Int) : Bool :=
  match v with
  | Val.date d => d ≤ b
  | _ => false

/-- `date_filter` body on a present table (`data_processor.py`
lines 165-178). -/
def dateFilterCore (df : DataFrame) (column : String)
    (startDate endDate : Option Int) : DataFrame :=
  if colDtype df column ≠ some Dtype.datetime then df
  else
    match startDate, endDate with
    | some a, some b =>
        filterRows df (fun r => dateGe (cellAt r (colIdx df column)) a
                             && dateLe (cellAt r (colIdx df column)) b)
    | some a, none =>
        filterRows df (fun r => dateGe (cellAt r (colIdx df column)) a)
    | none, some b =>
        filterRows df (fun r => dateLe (cellAt r (colIdx df column)) b)
    | none, none => df

/-- `date_filter(data, column, start_date, end_date)`. -/
def date_filter (data : Option DataFrame) (column : String)
    (startDate endDate : Option Int) : Option DataFrame :=
  data.map (fun df => dateFilterCore df column startDate endDate)

/-- One entry of `filters_config`: the `type`, `min`, `max`, `values`,
`start`, `end` keys of the per-column dict, each read with `.get` and
hence optional (`values` defaults to the empty list). -/
structure FilterInfo where
  type : Option String := none
  min : Option ℚ := none
  max : Option ℚ := none
  values : List String := []
  start : Option Int := none
  stop : Option Int := none
deriving DecidableEq, Repr

/-- One iteration of the `filter_data` loop (`data_processor.py`
lines 208-231): skip columns absent from the original table; apply a
numeric filter only when both bounds are present, a categorical filter
only when the selection is non-empty, a date filter unconditionally;
the dtype-list guards use the caller-supplied column lists, a falsy
(empty) list disabling that branch. -/
def applyFilterEntry (origNames : List String)
    (numericCols categoricalCols datetimeCols : List String)
    (acc : DataFrame) (entry : String × FilterInfo) : DataFrame :=
  let column := entry.1
  let info := entry.2
  if ¬origNames.contains column then acc
  else if info.type = some "numeric" ∧ numericCols ≠ [] ∧
          numericCols.contains column then
    match info.min, info.max with
    | some a, some b => numericFilterCore acc column (some a) (some b)
    | _, _ => acc
  else if info.type = some "categorical" ∧ categoricalCols ≠ [] ∧
          categoricalCols.contains column then
    if info.values ≠ [] then categoricalFilterCore acc column info.values
    else acc
  else if info.type = some "date" ∧ datetimeCols ≠ [] ∧
          datetimeCols.contains column then
    dateFilterCore acc column info.start info.stop
  else acc

/-- `filter_data` body on a present table (`data_processor.py`
lines 202-233): an empty configuration returns the table; otherwise
fold the entries over a copy of the table (copying is the identity in
this pure model), checking column membership against the columns of the original
table. -/
def filterDataCore (df : DataFrame) (filtersConfig : List (String × FilterInfo))
    (numericCols categoricalCols datetimeCols : List String) : DataFrame :=
  if filtersConfig.isEmpty then df
  else filtersConfig.foldl
    (applyFilterEntry df.colNames numericCols categoricalCols datetimeCols) df

/-- `filter_data(data, filters_config, numeric_cols, categorical_cols,
datetime_cols)`: a `None` table is returned unchanged (as `None`). -/
def filter_data (data : Option DataFrame)
    (filtersConfig : List (String × FilterInfo))
    (numericCols categoricalCols datetimeCols : List String) :
    Option DataFrame :=
  data.map (fun df =>
    filterDataCore df filtersConfig numericCols categoricalCols datetimeCols)

/-! ## Loading and cleaning (`load_clean_data`, `data_processor.py` lines 8-51) -/

/-- Outcome of running the pandas parser (`pd.read_csv` /
`pd.read_excel`) on a file: a parsed table, or a raised exception with
its message, tagged with whether the exception is a `ValueError`
(the `try` block distinguishes `except ValueError` from
`except Exception`). -/
inductive ParseOutcome where
  | ok (df : DataFrame)
  | err (isValueError : Bool) (msg : String)
deriving DecidableEq, Repr

/-- An uploaded file: its name (used for extension dispatch) and the
abstract outcome of parsing its content. -/
structure UploadedFile where
  name : String
  parseResult : ParseOutcome
deriving DecidableEq, Repr

/-- The Python `str.endswith(suffix)` test over the character list of the
string. -/
def strEndsWith (s suff : String) : Bool :=
  decide (suff.data.length ≤ s.data.length) &&
    (s.data.drop (s.data.length - suff.data.length) == suff.data)

/-- The `try` block of `load_clean_data` (lines 23-29): dispatch on the
extension, raising a `ValueError` with the unsupported-format message
when the extension is none of `.csv`/`.xls`/`.xlsx`. -/
def parseStep (f : UploadedFile) : Except (Bool × String) DataFrame :=
  if strEndsWith f.name ".csv" ∨ strEndsWith f.name ".xls" ∨
     strEndsWith f.name ".xlsx" then
    match f.parseResult with
    | ParseOutcome.ok df => Except.ok df
    | ParseOutcome.err isVE m => Except.error (isVE, m)
  else
    Except.error (true,
      "Unsupported file format. Please upload a CSV or Excel file.")

/-- Number of missing cells of column `j` (`data[col].isnull().sum()`). -/
def colNaCount (df : DataFrame) (j : Nat) : Nat :=
  df.rows.countP (fun r => cellAt r j == Val.na)

/-- `data.isnull().sum().to_dict()`: per-column missing-cell counts,
in column order. -/
def missingCensus (df : DataFrame) : List (String × Nat) :=
  df.cols.enum.map (fun p => (p.2.1, colNaCount df p.1))

/-- The non-missing numeric values of column `j`. -/
def columnVals (df : DataFrame) (j : Nat) : List ℚ :=
  df.rows.filterMap (fun r =>
    match cellAt r j with
    | Val.num q => some q
    | _ => none)

/-- `data[col].mean()`: the mean of the non-missing values of column
`j`, or `none` when every value is missing (pandas yields `NaN`, so
the subsequent `fillna` leaves the column untouched). -/
def colMeanQ (df : DataFrame) (j : Nat) : Option ℚ :=
  if columnVals df j = [] then none
  else some ((columnVals df j).sum / (columnVals df j).length)

/-- Effect of the numeric `fillna(mean)` loop (lines 41-43) on the cell
at column `j`: a missing cell of a numeric column becomes the column
mean when one is computable; every other cell is unchanged. -/
def imputeCell (df : DataFrame) (j : Nat) (v : Val) : Val :=
  if (df.cols.getD j ("", Dtype.other)).2 = Dtype.numeric then
    match v with
    | Val.na =>
        match colMeanQ df j with
        | some m => Val.num m
        | none => Val.na
    | v => v
  else v

/-- The numeric mean-imputation loop applied to the whole table. -/
def imputeNumeric (df : DataFrame) : DataFrame :=
  { df with rows := df.rows.map (fun r =>
      (r.1, r.2.enum.map (fun p => imputeCell df p.1 p.2))) }

/-- `data.dropna()`: drop every row still holding a missing cell. -/
def dropNaRows (df : DataFrame) : DataFrame :=
  { df with rows := df.rows.filter (fun r => decide (Val.na ∉ r.2)) }

/-- `reset_index(drop=True)`: relabel the rows `0, 1, 2, …`. -/
def resetIndex (df : DataFrame) : DataFrame :=
  { df with rows := (df.rows.map Prod.snd).enum }

/-- `load_clean_data(file)` (`data_processor.py` lines 8-51): parse by
extension, report a caught `ValueError` by its own message and any
other exception by the generic message, and on success compute the
missing-value census of the raw table, mean-impute numeric columns,
drop remaining incomplete rows and reindex. -/
def load_clean_data (file : UploadedFile) :
    Option DataFrame × String × List (String × Nat) :=
  match parseStep file with
  | Except.error (isVE, m) =>
      if isVE then (none, m, [])
      else (none,
        "No file uploaded. Please upload a valid CSV or Excel file.", [])
  | Except.ok data =>
      let missing := missingCensus data
      let cleaned := resetIndex (dropNaRows (imputeNumeric data))
      (some cleaned, "Data loaded and cleaned successfully.", missing)

/-! ## Column classification (`get_data_cols`, `utils.py` lines 100-120) -/

/-- `select_dtypes(include=["number"])` membership. -/
def isNumericDtype (d : Dtype) : Bool := d == Dtype.numeric

/-- `select_dtypes(include=["object", "category"])` membership. -/
def isCategoricalDtype (d : Dtype) : Bool :=
  d == Dtype.object || d == Dtype.category

/-- `select_dtypes(include=["datetime"])` membership. -/
def isDatetimeDtype (d : Dtype) : Bool := d == Dtype.datetime

/-- `get_data_cols` body on a present table: the names of the numeric,
object/category, and datetime columns, each in table order. -/
def getDataColsCore (df : DataFrame) :
    List String × List String × List String :=
  ((df.cols.filter (fun p => isNumericDtype p.2)).map Prod.fst,
   (df.cols.filter (fun p => isCategoricalDtype p.2)).map Prod.fst,
   (df.cols.filter (fun p => isDatetimeDtype p.2)).map Prod.fst)

/-- `get_data_cols(data)`: `None` yields `(None, None, None)`. -/
def get_data_cols (data : Option DataFrame) :
    Option (List String × List String × List String) :=
  data.map getDataColsCore

/-! ## Two-sigma anomaly rule (`insights.py` lines 64-79) -/

/-- `Series.mean()` of a list of values. -/
def meanQ (xs : List ℚ) : ℚ := xs.sum / xs.length

/-- `Series.std()` squared: the sample variance with `ddof = 1`
(the pandas default). -/
def sampleVar (xs : List ℚ) : ℚ :=
  (xs.map (fun x => (x - meanQ xs) ^ 2)).sum / ((xs.length : ℚ) - 1)

/-- The anomaly mask of `generate_trends_and_anomalies` (line 71): a
value is anomalous when it lies strictly below `mean - 2*std` or
strictly above `mean + 2*std`, with `std` the sample standard
deviation `√(sampleVar)`. -/
def isTwoSigmaAnomaly (xs : List ℚ) (x : ℚ) : Prop :=
  (x : ℝ) < (meanQ xs : ℝ) - 2 * Real.sqrt (sampleVar xs) ∨
  (meanQ xs : ℝ) + 2 * Real.sqrt (sampleVar xs) < (x : ℝ)

/-! ## Basic lemmas about row filtering -/

theorem filterRows_cols (df : DataFrame) (p : Nat × List Val → Bool) :
    (filterRows df p).cols = df.cols := rfl

theorem filterRows_sublist (df : DataFrame) (p : Nat × List Val → Bool) :
    (filterRows df p).rows.Sublist df.rows := List.filter_sublist df.rows

theorem mem_filterRows {df : DataFrame} {p : Nat × List Val → Bool}
    {r : Nat × List Val} :
    r ∈ (filterRows df p).rows ↔ r ∈ df.rows ∧ p r = true := List.mem_filter

theorem filter_self_self {α : Type} (p : α → Bool) (l : List α) :
    (l.filter p).filter p = l.filter p := by
  induction l with
  | nil => rfl
  | cons a t ih =>
      by_cases h : p a = true
      · simp [List.filter_cons, h, ih]
      · simp [List.filter_cons, h, ih]

theorem filterRows_filterRows (df : DataFrame) (p : Nat × List Val → Bool) :
    filterRows (filterRows df p) p = filterRows df p := by
  simp [filterRows, filter_self_self]

/-! ## Branch lemmas for the three type-specific filters -/

theorem colDtype_filterRows (df : DataFrame) (p : Nat × List Val → Bool)
    (c : String) : colDtype (filterRows df p) c = colDtype df c := rfl

theorem colIdx_filterRows (df : DataFrame) (p : Nat × List Val → Bool)
    (c : String) : colIdx (filterRows df p) c = colIdx df c := rfl

theorem numericFilterCore_invalid {df : DataFrame} {c : String}
    (mn mx : Option ℚ) (h : ¬colDtype df c = some Dtype.numeric) :
    numericFilterCore df c mn mx = df := by
  simp [numericFilterCore, h]

theorem numericFilterCore_none_none (df : DataFrame) (c : String) :
    numericFilterCore df c none none = df := by
  unfold numericFilterCore
  split
  · rfl
  · rfl

theorem numericFilterCore_both {df : DataFrame} {c : String} (a b : ℚ)
    (h : colDtype df c = some Dtype.numeric) :
    numericFilterCore df c (some a) (some b) =
      filterRows df (fun r => numGe (cellAt r (colIdx df c)) a
                           && numLe (cellAt r (colIdx df c)) b) := by
  unfold numericFilterCore
  rw [if_neg (not_not_intro h)]

theorem numericFilterCore_minOnly {df : DataFrame} {c : String} (a : ℚ)
    (h : colDtype df c = some Dtype.numeric) :
    numericFilterCore df c (some a) none =
      filterRows df (fun r => numGe (cellAt r (colIdx df c)) a) := by
  unfold numericFilterCore
  rw [if_neg (not_not_intro h)]

theorem numericFilterCore_maxOnly {df : DataFrame} {c : String} (b : ℚ)
    (h : colDtype df c = some Dtype.numeric) :
    numericFilterCore df c none (some b) =
      filterRows df (fun r => numLe (cellAt r (colIdx df c)) b) := by
  unfold numericFilterCore
  rw [if_neg (not_not_intro h)]

theorem numericFilterCore_cols (df : DataFrame) (c : String)
    (mn mx : Option ℚ) : (numericFilterCore df c mn mx).cols = df.cols := by
  unfold numericFilterCore
  split
  · rfl
  · cases mn <;> cases mx <;> rfl

theorem numericFilterCore_sublist (df : DataFrame) (c : String)
    (mn mx : Option ℚ) :
    (numericFilterCore df c mn mx).rows.Sublist df.rows := by
  unfold numericFilterCore
  split
  · exact List.Sublist.refl _
  · cases mn <;> cases mx <;>
      first
        | exact List.Sublist.refl _
        | exact List.filter_sublist df.rows

theorem numericFilterCore_idem (df : DataFrame) (c : String)
    (mn mx : Option ℚ) :
    numericFilterCore (numericFilterCore df c mn mx) c mn mx =
      numericFilterCore df c mn mx := by
  by_cases h : colDtype df c = some Dtype.numeric
  · cases mn with
    | none =>
        cases mx with
        | none => rw [numericFilterCore_none_none, numericFilterCore_none_none]
        | some b =>
            rw [numericFilterCore_maxOnly b h]
            rw [numericFilterCore_maxOnly b
              (show colDtype (filterRows df
                (fun r => numLe (cellAt r (colIdx df c)) b)) c =
                  some Dtype.numeric from h)]
            rw [colIdx_filterRows, filterRows_filterRows]
    | some a =>
        cases mx with
        | none =>
            rw [numericFilterCore_minOnly a h]
            rw [numericFilterCore_minOnly a
              (show colDtype (filterRows df
                (fun r => numGe (cellAt r (colIdx df c)) a)) c =
                  some Dtype.numeric from h)]
            rw [colIdx_filterRows, filterRows_filterRows]
        | some b =>
            rw [numericFilterCore_both a b h]
            rw [numericFilterCore_both a b
              (show colDtype (filterRows df
                (fun r => numGe (cellAt r (colIdx df c)) a
                       && numLe (cellAt r (colIdx df c)) b)) c =
                  some Dtype.numeric from h)]
            rw [colIdx_filterRows, filterRows_filterRows]
  · rw [numericFilterCore_invalid mn mx h, numericFilterCore_invalid mn mx h]

theorem categoricalFilterCore_cols (df : DataFrame) (c : String)
    (sel : List String) : (categoricalFilterCore df c sel).cols = df.cols := by
  unfold categoricalFilterCore
  split
  · rfl
  · split <;> rfl

theorem categoricalFilterCore_sublist (df : DataFrame) (c : String)
    (sel : List String) :
    (categoricalFilterCore df c sel).rows.Sublist df.rows := by
  unfold categoricalFilterCore
  split
  · exact List.Sublist.refl _
  · split
    · exact List.filter_sublist df.rows
    · exact List.Sublist.refl _

theorem categoricalFilterCore_invalid {df : DataFrame} {c : String}
    (sel : List String)
    (h : ¬(colDtype df c = some Dtype.category ∨
           colDtype df c = some Dtype.object)) :
    categoricalFilterCore df c sel = df := by
  unfold categoricalFilterCore
  rw [if_pos h]

theorem categoricalFilterCore_short (df : DataFrame) (c : String)
    (sel : List String) (hs : ¬sel.length > 0) :
    categoricalFilterCore df c sel = df := by
  unfold categoricalFilterCore
  split
  all_goals simp [hs]

theorem categoricalFilterCore_pos {df : DataFrame} {c : String}
    {sel : List String}
    (h : colDtype df c = some Dtype.category ∨
         colDtype df c = some Dtype.object)
    (hs : sel.length > 0) :
    categoricalFilterCore df c sel =
      filterRows df (fun r => valIsin (cellAt r (colIdx df c)) sel) := by
  unfold categoricalFilterCore
  rw [if_neg (not_not_intro h), if_pos hs]

theorem categoricalFilterCore_idem (df : DataFrame) (c : String)
    (sel : List String) :
    categoricalFilterCore (categoricalFilterCore df c sel) c sel =
      categoricalFilterCore df c sel := by
  by_cases h : colDtype df c = some Dtype.category ∨
               colDtype df c = some Dtype.object
  · by_cases hs : sel.length > 0
    · rw [categoricalFilterCore_pos h hs]
      rw [categoricalFilterCore_pos
        (show colDtype (filterRows df
              (fun r => valIsin (cellAt r (colIdx df c)) sel)) c =
                some Dtype.category ∨
              colDtype (filterRows df
              (fun r => valIsin (cellAt r (colIdx df c)) sel)) c =
                some Dtype.object from h) hs]
      rw [colIdx_filterRows, filterRows_filterRows]
    · rw [categoricalFilterCore_short df c sel hs,
        categoricalFilterCore_short df c sel hs]
  · rw [categoricalFilterCore_invalid sel h,
      categoricalFilterCore_invalid sel h]

theorem dateFilterCore_invalid {df : DataFrame} {c : String}
    (sd ed : Option Int) (h : ¬colDtype df c = some Dtype.datetime) :
    dateFilterCore df c sd ed = df := by
  simp [dateFilterCore, h]

theorem dateFilterCore_cols (df : DataFrame) (c : String)
    (sd ed : Option Int) : (dateFilterCore df c sd ed).cols = df.cols := by
  unfold dateFilterCore
  split
  · rfl
  · cases sd <;> cases ed <;> rfl

theorem dateFilterCore_sublist (df : DataFrame) (c : String)
    (sd ed : Option Int) :
    (dateFilterCore df c sd ed).rows.Sublist df.rows := by
  unfold dateFilterCore
  split
  · exact List.Sublist.refl _
  · cases sd <;> cases ed <;>
      first
        | exact List.Sublist.refl _
        | exact List.filter_sublist df.rows

theorem dateFilterCore_none_none (df : DataFrame) (c : String) :
    dateFilterCore df c none none = df := by
  unfold dateFilterCore
  split
  · rfl
  · rfl

theorem dateFilterCore_both {df : DataFrame} {c : String} (a b : Int)
    (h : colDtype df c = some Dtype.datetime) :
    dateFilterCore df c (some a) (some b) =
      filterRows df (fun r => dateGe (cellAt r (colIdx df c)) a
                           && dateLe (cellAt r (colIdx df c)) b) := by
  unfold dateFilterCore
  rw [if_neg (not_not_intro h)]

theorem dateFilterCore_minOnly {df : DataFrame} {c : String} (a : Int)
    (h : colDtype df c = some Dtype.datetime) :
    dateFilterCore df c (some a) none =
      filterRows df (fun r => dateGe (cellAt r (colIdx df c)) a) := by
  unfold dateFilterCore
  rw [if_neg (not_not_intro h)]

theorem dateFilterCore_maxOnly {df : DataFrame} {c : String} (b : Int)
    (h : colDtype df c = some Dtype.datetime) :
    dateFilterCore df c none (some b) =
      filterRows df (fun r => dateLe (cellAt r (colIdx df c)) b) := by
  unfold dateFilterCore
  rw [if_neg (not_not_intro h)]

theorem dateFilterCore_idem (df : DataFrame) (c : String)
    (sd ed : Option Int) :
    dateFilterCore (dateFilterCore df c sd ed) c sd ed =
      dateFilterCore df c sd ed := by
  by_cases h : colDtype df c = some Dtype.datetime
  · cases sd with
    | none =>
        cases ed with
        | none => rw [dateFilterCore_none_none, dateFilterCore_none_none]
        | some b =>
            rw [dateFilterCore_maxOnly b h]
            rw [dateFilterCore_maxOnly b
              (show colDtype (filterRows df
                (fun r => dateLe (cellAt r (colIdx df c)) b)) c =
                  some Dtype.datetime from h)]
            rw [colIdx_filterRows, filterRows_filterRows]
    | some a =>
        cases ed with
        | none =>
            rw [dateFilterCore_minOnly a h]
            rw [dateFilterCore_minOnly a
              (show colDtype (filterRows df
                (fun r => dateGe (cellAt r (colIdx df c)) a)) c =
                  some Dtype.datetime from h)]
            rw [colIdx_filterRows, filterRows_filterRows]
        | some b =>
            rw [dateFilterCore_both a b h]
            rw [dateFilterCore_both a b
              (show colDtype (filterRows df
                (fun r => dateGe (cellAt r (colIdx df c)) a
                       && dateLe (cellAt r (colIdx df c)) b)) c =
                  some Dtype.datetime from h)]
            rw [colIdx_filterRows, filterRows_filterRows]
  · rw [dateFilterCore_invalid sd ed h, dateFilterCore_invalid sd ed h]

/-! ## Lemmas about the unified entry point -/

theorem applyFilterEntry_cols (names nc cc dc : List String)
    (acc : DataFrame) (e : String × FilterInfo) :
    (applyFilterEntry names nc cc dc acc e).cols = acc.cols := by
  simp only [applyFilterEntry]
  repeat' split
  all_goals
    simp [numericFilterCore_cols, categoricalFilterCore_cols,
      dateFilterCore_cols]

theorem applyFilterEntry_sublist (names nc cc dc : List String)
    (acc : DataFrame) (e : String × FilterInfo) :
    (applyFilterEntry names nc cc dc acc e).rows.Sublist acc.rows := by
  simp only [applyFilterEntry]
  repeat' split
  all_goals
    first
      | exact List.Sublist.refl _
      | exact numericFilterCore_sublist ..
      | exact categoricalFilterCore_sublist ..
      | exact dateFilterCore_sublist ..

theorem applyFilterEntry_idem (names nc cc dc : List String)
    (acc : DataFrame) (e : String × FilterInfo) :
    applyFilterEntry names nc cc dc
        (applyFilterEntry names nc cc dc acc e) e =
      applyFilterEntry names nc cc dc acc e := by
  by_cases h1 : e.1 ∈ names
  · by_cases h2 : e.2.type = some "numeric" ∧ ¬nc = [] ∧ e.1 ∈ nc
    · rcases hmn : e.2.min with _ | a <;> rcases hmx : e.2.max with _ | b <;>
        simp [applyFilterEntry, h1, h2, hmn, hmx, numericFilterCore_idem]
    · by_cases h3 : e.2.type = some "categorical" ∧ ¬cc = [] ∧ e.1 ∈ cc
      · by_cases h4 : e.2.values = []
        · simp [applyFilterEntry, h1, h2, h3, h4]
        · simp [applyFilterEntry, h1, h2, h3, h4, categoricalFilterCore_idem]
      · by_cases h5 : e.2.type = some "date" ∧ ¬dc = [] ∧ e.1 ∈ dc
        · simp [applyFilterEntry, h1, h2, h3, h5, dateFilterCore_idem]
        · simp [applyFilterEntry, h1, h2, h3, h5]
  · simp [applyFilterEntry, h1]

theorem foldl_applyFilterEntry_cols (names nc cc dc : List String) :
    ∀ (l : List (String × FilterInfo)) (acc : DataFrame),
      (l.foldl (applyFilterEntry names nc cc dc) acc).cols = acc.cols := by
  intro l
  induction l with
  | nil => intro acc; rfl
  | cons e t ih =>
      intro acc
      rw [List.foldl_cons, ih, applyFilterEntry_cols]

theorem foldl_applyFilterEntry_sublist (names nc cc dc : List String) :
    ∀ (l : List (String × FilterInfo)) (acc : DataFrame),
      (l.foldl (applyFilterEntry names nc cc dc) acc).rows.Sublist acc.rows := by
  intro l
  induction l with
  | nil => intro acc; exact List.Sublist.refl _
  | cons e t ih =>
      intro acc
      rw [List.foldl_cons]
      exact (ih _).trans (applyFilterEntry_sublist names nc cc dc acc e)

theorem filterDataCore_cols (df : DataFrame)
    (cfg : List (String × FilterInfo)) (nc cc dc : List String) :
    (filterDataCore df cfg nc cc dc).cols = df.cols := by
  unfold filterDataCore
  split
  · rfl
  · exact foldl_applyFilterEntry_cols df.colNames nc cc dc cfg df

theorem filterDataCore_sublist (df : DataFrame)
    (cfg : List (String × FilterInfo)) (nc cc dc : List String) :
    (filterDataCore df cfg nc cc dc).rows.Sublist df.rows := by
  unfold filterDataCore
  split
  · exact List.Sublist.refl _
  · exact foldl_applyFilterEntry_sublist df.colNames nc cc dc cfg df

theorem filterDataCore_single (df : DataFrame) (c : String)
    (i : FilterInfo) (nc cc dc : List String) :
    filterDataCore df [(c, i)] nc cc dc =
      applyFilterEntry df.colNames nc cc dc df (c, i) := by
  simp [filterDataCore]

theorem colNames_eq_of_cols {df1 df2 : DataFrame}
    (h : df1.cols = df2.cols) : df1.colNames = df2.colNames := by
  unfold DataFrame.colNames
  rw [h]

theorem filterDataCore_single_idem (df : DataFrame) (c : String)
    (i : FilterInfo) (nc cc dc : List String) :
    filterDataCore (filterDataCore df [(c, i)] nc cc dc) [(c, i)] nc cc dc =
      filterDataCore df [(c, i)] nc cc dc := by
  rw [filterDataCore_single, filterDataCore_single]
  rw [colNames_eq_of_cols (applyFilterEntry_cols df.colNames nc cc dc df (c, i))]
  exact applyFilterEntry_idem df.colNames nc cc dc df (c, i)

/-! ## Claim C9: degenerate filter specifications are identities -/

/-- C9: degenerate filter specifications are identity operations: for
every table (present or absent), a numeric filter with both bounds
absent, a categorical filter with an empty value set, and a date
filter with both bounds absent each return the input unchanged. -/
theorem degenerate_filters_are_identity :
    ∀ (data : Option DataFrame) (c : String),
      numeric_filter data c none none = data ∧
      categorical_filter data c [] = data ∧
      date_filter data c none none = data := by
  intro data c
  refine ⟨?_, ?_, ?_⟩ <;> cases data with
  | none => rfl
  | some df =>
      simp only [numeric_filter, categorical_filter, date_filter, Option.map]
      first
        | rw [numericFilterCore_none_none]
        | rw [categoricalFilterCore_short df c [] (by simp)]
        | rw [dateFilterCore_none_none]

/-! ## Claim C10: filters keep the schema and a subsequence of rows -/

/-- C10: every filter operation is pure on its input (the model is
functional), returns a table with exactly the columns of the input, and its
rows form a subsequence (`List.Sublist`) of the rows of the input — labels
and cell values of kept rows unchanged.  The first conjunct of each
group ties the `None`-aware function to its core body. -/
theorem filters_preserve_schema_and_row_subsequence :
    ∀ (df : DataFrame) (c : String) (mn mx : Option ℚ) (sel : List String)
      (sd ed : Option Int) (cfg : List (String × FilterInfo))
      (nc cc dc : List String),
      (numeric_filter (some df) c mn mx = some (numericFilterCore df c mn mx) ∧
        (numericFilterCore df c mn mx).cols = df.cols ∧
        (numericFilterCore df c mn mx).rows.Sublist df.rows) ∧
      (categorical_filter (some df) c sel =
          some (categoricalFilterCore df c sel) ∧
        (categoricalFilterCore df c sel).cols = df.cols ∧
        (categoricalFilterCore df c sel).rows.Sublist df.rows) ∧
      (date_filter (some df) c sd ed = some (dateFilterCore df c sd ed) ∧
        (dateFilterCore df c sd ed).cols = df.cols ∧
        (dateFilterCore df c sd ed).rows.Sublist df.rows) ∧
      (filter_data (some df) cfg nc cc dc =
          some (filterDataCore df cfg nc cc dc) ∧
        (filterDataCore df cfg nc cc dc).cols = df.cols ∧
        (filterDataCore df cfg nc cc dc).rows.Sublist df.rows) := by
  intro df c mn mx sel sd ed cfg nc cc dc
  exact ⟨⟨rfl, numericFilterCore_cols df c mn mx,
          numericFilterCore_sublist df c mn mx⟩,
        ⟨rfl, categoricalFilterCore_cols df c sel,
          categoricalFilterCore_sublist df c sel⟩,
        ⟨rfl, dateFilterCore_cols df c sd ed,
          dateFilterCore_sublist df c sd ed⟩,
        ⟨rfl, filterDataCore_cols df cfg nc cc dc,
          filterDataCore_sublist df cfg nc cc dc⟩⟩

/-! ## Claim C7: filtering is idempotent -/

/-- C7: filtering is idempotent — applying any of the three
type-specific filters, or the unified entry point with a single-column
configuration, to its own output yields the same result as applying it
once.  This holds for every specification, valid or not. -/
theorem filtering_is_idempotent :
    ∀ (data : Option DataFrame) (c : String) (mn mx : Option ℚ)
      (sel : List String) (sd ed : Option Int) (i : FilterInfo)
      (nc cc dc : List String),
      numeric_filter (numeric_filter data c mn mx) c mn mx =
        numeric_filter data c mn mx ∧
      categorical_filter (categorical_filter data c sel) c sel =
        categorical_filter data c sel ∧
      date_filter (date_filter data c sd ed) c sd ed =
        date_filter data c sd ed ∧
      filter_data (filter_data data [(c, i)] nc cc dc) [(c, i)] nc cc dc =
        filter_data data [(c, i)] nc cc dc := by
  intro data c mn mx sel sd ed i nc cc dc
  refine ⟨?_, ?_, ?_, ?_⟩ <;> cases data with
  | none => rfl
  | some df =>
      simp only [numeric_filter, categorical_filter, date_filter,
        filter_data, Option.map]
      first
        | rw [numericFilterCore_idem]
        | rw [categoricalFilterCore_idem]
        | rw [dateFilterCore_idem]
        | rw [filterDataCore_single_idem]

/-! ## Claim C1: numeric filtering keeps the inclusive range -/

/-- Specification predicate, written from the spec text of claim C1:
with both bounds absent every row is kept (no-op); otherwise a row is
kept exactly when its cell is a numeric value lying in the inclusive
range `[min, max]`, unbounded on an absent side. -/
def numericKeepSpec (mn mx : Option ℚ) (v : Val) : Prop :=
  match mn, mx with
  | none, none => True
  | some a, none => ∃ q : ℚ, v = Val.num q ∧ a ≤ q
  | none, some b => ∃ q : ℚ, v = Val.num q ∧ q ≤ b
  | some a, some b => ∃ q : ℚ, v = Val.num q ∧ a ≤ q ∧ q ≤ b

theorem numGe_eq_true_iff {v : Val} {a : ℚ} :
    numGe v a = true ↔ ∃ q : ℚ, v = Val.num q ∧ a ≤ q := by
  cases v <;> simp [numGe]

theorem numLe_eq_true_iff {v : Val} {b : ℚ} :
    numLe v b = true ↔ ∃ q : ℚ, v = Val.num q ∧ q ≤ b := by
  cases v <;> simp [numLe]

theorem numGe_and_numLe_eq_true_iff {v : Val} {a b : ℚ} :
    (numGe v a && numLe v b) = true ↔
      ∃ q : ℚ, v = Val.num q ∧ a ≤ q ∧ q ≤ b := by
  cases v <;> simp [numGe, numLe]

theorem mem_numericFilterCore {df : DataFrame} {c : String}
    {mn mx : Option ℚ} {r : Nat × List Val}
    (h : colDtype df c = some Dtype.numeric) :
    r ∈ (numericFilterCore df c mn mx).rows ↔
      r ∈ df.rows ∧ numericKeepSpec mn mx (cellAt r (colIdx df c)) := by
  cases mn with
  | none =>
      cases mx with
      | none =>
          rw [numericFilterCore_none_none]
          simp [numericKeepSpec]
      | some b =>
          rw [numericFilterCore_maxOnly b h, mem_filterRows]
          exact and_congr_right (fun _ => numLe_eq_true_iff)
  | some a =>
      cases mx with
      | none =>
          rw [numericFilterCore_minOnly a h, mem_filterRows]
          exact and_congr_right (fun _ => numGe_eq_true_iff)
      | some b =>
          rw [numericFilterCore_both a b h, mem_filterRows]
          exact and_congr_right (fun _ => numGe_and_numLe_eq_true_iff)

/-- A single-column numeric entry of `filters_config`. -/
def numericConfig (mn mx : Option ℚ) : FilterInfo :=
  { type := some "numeric", min := mn, max := mx }

theorem colDtype_eq_none_of_not_mem {df : DataFrame} {c : String}
    (h : c ∉ df.colNames) : colDtype df c = none := by
  unfold colDtype
  rw [List.find?_eq_none.mpr]
  · rfl
  · intro p hp
    simp only [beq_iff_eq]
    intro hpc
    exact h (hpc ▸ List.mem_map_of_mem Prod.fst hp)

theorem filterDataCore_numeric_both (df : DataFrame) (c : String)
    (a b : ℚ) (nc cc dc : List String) (h : c ∈ nc) :
    filterDataCore df [(c, numericConfig (some a) (some b))] nc cc dc =
      numericFilterCore df c (some a) (some b) := by
  rw [filterDataCore_single]
  by_cases hn : c ∈ df.colNames
  · simp [applyFilterEntry, numericConfig, hn, h, List.ne_nil_of_mem h]
  · rw [numericFilterCore_invalid (some a) (some b)
      (by rw [colDtype_eq_none_of_not_mem hn]; intro hx; cases hx)]
    simp [applyFilterEntry, hn]

theorem filterDataCore_numeric_partial_skip (df : DataFrame) (c : String)
    (om : Option ℚ) (nc cc dc : List String) :
    filterDataCore df [(c, numericConfig om none)] nc cc dc = df ∧
    filterDataCore df [(c, numericConfig none om)] nc cc dc = df := by
  constructor <;>
  · rw [filterDataCore_single]
    simp only [applyFilterEntry, numericConfig]
    split_ifs <;>
      first
        | rfl
        | (cases om <;> rfl)
        | exact categoricalFilterCore_short df c [] (by simp)
        | rw [dateFilterCore_none_none]

/-- C1 (amended): the type-specific numeric filter keeps exactly the
rows whose cell lies in the inclusive range `[min, max]`, unbounded on
an absent side, and is a no-op when both bounds are absent; the
unified entry point given a single-entry numeric configuration applies
that filter only when BOTH bounds are supplied — a configuration with
exactly one bound (or none) is skipped and the full table returned. -/
theorem numeric_filter_inclusive_range_and_entry_point :
    ∀ (df : DataFrame) (c : String) (mn mx : Option ℚ) (a b : ℚ)
      (nc cc dc : List String) (r : Nat × List Val),
      (colDtype df c = some Dtype.numeric →
        (r ∈ (numericFilterCore df c mn mx).rows ↔
          r ∈ df.rows ∧ numericKeepSpec mn mx (cellAt r (colIdx df c)))) ∧
      (c ∈ nc →
        filter_data (some df) [(c, numericConfig (some a) (some b))]
            nc cc dc =
          some (numericFilterCore df c (some a) (some b))) ∧
      filter_data (some df) [(c, numericConfig mn none)] nc cc dc =
        some df ∧
      filter_data (some df) [(c, numericConfig none mx)] nc cc dc =
        some df := by
  intro df c mn mx a b nc cc dc r
  refine ⟨fun h => mem_numericFilterCore h, fun h => ?_, ?_, ?_⟩
  · simp only [filter_data, Option.map]
    rw [filterDataCore_numeric_both df c a b nc cc dc h]
  · simp only [filter_data, Option.map]
    rw [(filterDataCore_numeric_partial_skip df c mn nc cc dc).1]
  · simp only [filter_data, Option.map]
    rw [(filterDataCore_numeric_partial_skip df c mx nc cc dc).2]

/-- A two-row table with one numeric column `x` holding 1 and 5. -/
def dfNum : DataFrame :=
  ⟨[("x", Dtype.numeric)], [(0, [Val.num 1]), (1, [Val.num 5])]⟩

/-- C1 counterexample: on the table with numeric column `x` = [1, 5]
and the single-entry numeric configuration `min = 3` (no `max`), the
unified entry point returns the FULL table, while filtering by that
bound alone would keep only the row with value 5 — so the claim that
the unified entry point filters by a single supplied bound is false. -/
theorem filter_data_single_bound_counterexample :
    filter_data (some dfNum) [("x", numericConfig (some 3) none)]
        ["x"] [] [] = some dfNum ∧
    numeric_filter (some dfNum) "x" (some 3) none =
      some ⟨dfNum.cols, [(1, [Val.num 5])]⟩ ∧
    dfNum.rows ≠ [(1, [Val.num 5])] := by
  refine ⟨?_, ?_, ?_⟩ <;> decide

/-- Witness for the amended C1 theorem at the concrete table `dfNum`. -/
theorem numeric_filter_inclusive_range_witness :
    ((1, [Val.num 5]) ∈ (numericFilterCore dfNum "x" (some 3) (some 3)).rows ↔
      (1, [Val.num 5]) ∈ dfNum.rows ∧
        numericKeepSpec (some 3) (some 3)
          (cellAt (1, [Val.num 5]) (colIdx dfNum "x"))) ∧
    filter_data (some dfNum) [("x", numericConfig (some 2) (some 6))]
        ["x"] [] [] = some (numericFilterCore dfNum "x" (some 2) (some 6)) ∧
    filter_data (some dfNum) [("x", numericConfig (some 3) none)]
        ["x"] [] [] = some dfNum ∧
    filter_data (some dfNum) [("x", numericConfig none (some 3))]
        ["x"] [] [] = some dfNum := by
  have h := numeric_filter_inclusive_range_and_entry_point dfNum "x"
    (some 3) (some 3) 2 6 ["x"] [] [] (1, [Val.num 5])
  exact ⟨h.1 (by rfl), h.2.1 (by decide), h.2.2.1, h.2.2.2⟩

/-! ## Claim C2: behaviour on validation failure -/

/-- C2 counterexample: filtering the two-row table `dfNum` on a column
`"zz"` it does not have, the unified entry point `filter_data` returns
the UNFILTERED table (which is non-empty), not a none-equivalent empty
result — it fails open, contradicting the claim that it fails closed. -/
theorem filter_data_fails_open_counterexample :
    filter_data (some dfNum) [("zz", numericConfig (some 0) (some 9))]
        ["x"] [] [] = some dfNum ∧
    dfNum.rows.length = 2 := by
  refine ⟨?_, ?_⟩ <;> decide

/-- A single-column categorical entry of `filters_config`. -/
def categoricalConfig (values : List String) : FilterInfo :=
  { type := some "categorical", values := values }

/-- A single-column date entry of `filters_config`. -/
def dateConfig (sd ed : Option Int) : FilterInfo :=
  { type := some "date", start := sd, stop := ed }

/-- C2 (amended): on validation failure every path degrades to a no-op
rather than failing closed: each type-specific filter returns its
input unchanged (an absent table stays `None`, a missing column or a
dtype mismatch leaves the table untouched), and the unified entry
point returns `None` only when the table is absent — an entry whose
column is missing from the table, or whose filter kind (numeric,
categorical, or date) does not match the corresponding
column-classification list, is skipped, the table coming back
unchanged instead of as an empty result. -/
theorem validation_failures_degrade_to_noop :
    ∀ (df : DataFrame) (c : String) (mn mx : Option ℚ) (sel : List String)
      (sd ed : Option Int) (i : FilterInfo)
      (cfg : List (String × FilterInfo)) (nc cc dc : List String),
      numeric_filter none c mn mx = none ∧
      categorical_filter none c sel = none ∧
      date_filter none c sd ed = none ∧
      filter_data none cfg nc cc dc = none ∧
      (¬colDtype df c = some Dtype.numeric →
        numericFilterCore df c mn mx = df) ∧
      (¬(colDtype df c = some Dtype.category ∨
         colDtype df c = some Dtype.object) →
        categoricalFilterCore df c sel = df) ∧
      (¬colDtype df c = some Dtype.datetime →
        dateFilterCore df c sd ed = df) ∧
      (c ∉ df.colNames → filterDataCore df [(c, i)] nc cc dc = df) ∧
      (c ∉ nc → filterDataCore df [(c, numericConfig mn mx)] nc cc dc = df) ∧
      (c ∉ cc →
        filterDataCore df [(c, categoricalConfig sel)] nc cc dc = df) ∧
      (c ∉ dc → filterDataCore df [(c, dateConfig sd ed)] nc cc dc = df) := by
  intro df c mn mx sel sd ed i cfg nc cc dc
  refine ⟨rfl, rfl, rfl, rfl,
    fun h => numericFilterCore_invalid mn mx h,
    fun h => categoricalFilterCore_invalid sel h,
    fun h => dateFilterCore_invalid sd ed h,
    fun h => ?_, fun h => ?_, fun h => ?_, fun h => ?_⟩
  · rw [filterDataCore_single]
    simp [applyFilterEntry, h]
  · rw [filterDataCore_single]
    by_cases hn : c ∈ df.colNames <;>
      simp [applyFilterEntry, numericConfig, hn, h,
        show ("numeric" : String) ≠ "categorical" from by decide,
        show ("numeric" : String) ≠ "date" from by decide]
  · rw [filterDataCore_single]
    by_cases hn : c ∈ df.colNames <;>
      simp [applyFilterEntry, categoricalConfig, hn, h,
        show ("categorical" : String) ≠ "numeric" from by decide,
        show ("categorical" : String) ≠ "date" from by decide]
  · rw [filterDataCore_single]
    by_cases hn : c ∈ df.colNames <;>
      simp [applyFilterEntry, dateConfig, hn, h,
        show ("date" : String) ≠ "numeric" from by decide,
        show ("date" : String) ≠ "categorical" from by decide]

/-- Witness for the amended C2 theorem: the missing column `"zz"` on
the concrete table `dfNum`, plus kind mismatches on the present
numeric column `"x"` (categorical and date entries with empty
classification lists). -/
theorem validation_failures_witness :
    numeric_filter none "zz" (some 1) none = none ∧
    categorical_filter none "zz" ["u"] = none ∧
    date_filter none "zz" (some 1) none = none ∧
    filter_data none [] ["x"] [] [] = none ∧
    numericFilterCore dfNum "zz" (some 1) none = dfNum ∧
    categoricalFilterCore dfNum "zz" ["u"] = dfNum ∧
    dateFilterCore dfNum "zz" (some 1) none = dfNum ∧
    filterDataCore dfNum [("zz", numericConfig (some 1) none)]
      ["x"] [] [] = dfNum ∧
    filterDataCore dfNum [("x", categoricalConfig ["u"])]
      ["x"] [] [] = dfNum ∧
    filterDataCore dfNum [("x", dateConfig (some 1) none)]
      ["x"] [] [] = dfNum := by
  have h := validation_failures_degrade_to_noop dfNum "zz" (some 1) none
    ["u"] (some 1) none (numericConfig (some 1) none) [] ["x"] [] []
  obtain ⟨-, -, -, -, -, -, -, -, -, hcat, hdate⟩ :=
    validation_failures_degrade_to_noop dfNum "x" (some 1) none
      ["u"] (some 1) none (numericConfig (some 1) none) [] ["x"] [] []
  exact ⟨h.1, h.2.1, h.2.2.1, h.2.2.2.1,
    h.2.2.2.2.1 (by decide),
    h.2.2.2.2.2.1 (by decide),
    h.2.2.2.2.2.2.1 (by decide),
    h.2.2.2.2.2.2.2.1 (by decide),
    hcat (by decide), hdate (by decide)⟩

/-! ## Claim C8: the column classification is a partition -/

theorem mem_classification {df : DataFrame} {f : Dtype → Bool} {c : String} :
    c ∈ (df.cols.filter (fun p => f p.2)).map Prod.fst ↔
      ∃ p, p ∈ df.cols ∧ f p.2 = true ∧ p.1 = c := by
  constructor
  · intro h
    rcases List.mem_map.mp h with ⟨p, hp, hpc⟩
    rcases List.mem_filter.mp hp with ⟨hmem, hf⟩
    exact ⟨p, hmem, hf, hpc⟩
  · rintro ⟨p, hmem, hf, hpc⟩
    exact List.mem_map.mpr ⟨p, List.mem_filter.mpr ⟨hmem, hf⟩, hpc⟩

theorem cols_eq_of_name_eq {df : DataFrame} (hnd : df.colNames.Nodup)
    {p q : String × Dtype} (hp : p ∈ df.cols) (hq : q ∈ df.cols)
    (h : p.1 = q.1) : p = q :=
  List.inj_on_of_nodup_map hnd hp hq h

/-- C8: for a table with distinct column names, `get_data_cols`
returns three pairwise-disjoint sequences of column names that
together cover every column whose dtype matches one of the three
classification rules, each sequence a subsequence of the column order of the table. -/
theorem classification_is_partition (df : DataFrame)
    (hnd : df.colNames.Nodup) :
    get_data_cols (some df) = some (getDataColsCore df) ∧
    (∀ c, c ∈ (getDataColsCore df).1 → c ∉ (getDataColsCore df).2.1) ∧
    (∀ c, c ∈ (getDataColsCore df).1 → c ∉ (getDataColsCore df).2.2) ∧
    (∀ c, c ∈ (getDataColsCore df).2.1 → c ∉ (getDataColsCore df).2.2) ∧
    (∀ p ∈ df.cols,
      (isNumericDtype p.2 = true → p.1 ∈ (getDataColsCore df).1) ∧
      (isCategoricalDtype p.2 = true → p.1 ∈ (getDataColsCore df).2.1) ∧
      (isDatetimeDtype p.2 = true → p.1 ∈ (getDataColsCore df).2.2)) ∧
    (getDataColsCore df).1.Sublist df.colNames ∧
    (getDataColsCore df).2.1.Sublist df.colNames ∧
    (getDataColsCore df).2.2.Sublist df.colNames := by
  refine ⟨rfl, ?_, ?_, ?_, ?_, ?_, ?_, ?_⟩
  · intro c h1 h2
    rcases mem_classification.mp h1 with ⟨p, hp, hfp, hpc⟩
    rcases mem_classification.mp h2 with ⟨q, hq, hfq, hqc⟩
    have hpq : p = q := cols_eq_of_name_eq hnd hp hq (hpc.trans hqc.symm)
    subst hpq
    cases hd : p.2 <;> rw [hd] at hfp hfq <;>
      simp [isNumericDtype, isCategoricalDtype] at hfp hfq
  · intro c h1 h2
    rcases mem_classification.mp h1 with ⟨p, hp, hfp, hpc⟩
    rcases mem_classification.mp h2 with ⟨q, hq, hfq, hqc⟩
    have hpq : p = q := cols_eq_of_name_eq hnd hp hq (hpc.trans hqc.symm)
    subst hpq
    cases hd : p.2 <;> rw [hd] at hfp hfq <;>
      simp [isNumericDtype, isDatetimeDtype] at hfp hfq
  · intro c h1 h2
    rcases mem_classification.mp h1 with ⟨p, hp, hfp, hpc⟩
    rcases mem_classification.mp h2 with ⟨q, hq, hfq, hqc⟩
    have hpq : p = q := cols_eq_of_name_eq hnd hp hq (hpc.trans hqc.symm)
    subst hpq
    cases hd : p.2 <;> rw [hd] at hfp hfq <;>
      simp [isCategoricalDtype, isDatetimeDtype] at hfp hfq
  · intro p hp
    exact ⟨fun hf => List.mem_map_of_mem Prod.fst (List.mem_filter.mpr ⟨hp, hf⟩),
      fun hf => List.mem_map_of_mem Prod.fst (List.mem_filter.mpr ⟨hp, hf⟩),
      fun hf => List.mem_map_of_mem Prod.fst (List.mem_filter.mpr ⟨hp, hf⟩)⟩
  · exact (List.filter_sublist df.cols).map Prod.fst
  · exact (List.filter_sublist df.cols).map Prod.fst
  · exact (List.filter_sublist df.cols).map Prod.fst

/-- A table with one column of each classification plus one of no
classification; used as witness data. -/
def dfMixed : DataFrame :=
  ⟨[("a", Dtype.numeric), ("b", Dtype.object), ("k", Dtype.category),
    ("d", Dtype.datetime), ("e", Dtype.other)], []⟩

/-- Witness for C8 on the concrete table `dfMixed`. -/
theorem classification_is_partition_witness :
    "a" ∈ (getDataColsCore dfMixed).1 ∧
    "a" ∉ (getDataColsCore dfMixed).2.1 ∧
    (getDataColsCore dfMixed).1.Sublist dfMixed.colNames := by
  have h := classification_is_partition dfMixed (by decide)
  exact ⟨by decide, h.2.1 "a" (by decide), h.2.2.2.2.2.1⟩

/-! ## Lemmas about loading and cleaning -/

theorem load_of_parse_ok {f : UploadedFile} {raw : DataFrame}
    (h : parseStep f = Except.ok raw) :
    load_clean_data f =
      (some (resetIndex (dropNaRows (imputeNumeric raw))),
       "Data loaded and cleaned successfully.", missingCensus raw) := by
  simp [load_clean_data, h]

theorem mem_dropNaRows {df : DataFrame} {r : Nat × List Val} :
    r ∈ (dropNaRows df).rows ↔ r ∈ df.rows ∧ Val.na ∉ r.2 := by
  simp [dropNaRows, List.mem_filter]

theorem mem_resetIndex {df : DataFrame} {r : Nat × List Val}
    (h : r ∈ (resetIndex df).rows) : r.2 ∈ df.rows.map Prod.snd :=
  List.getElem?_mem (List.mem_enum_iff_getElem?.mp h)

theorem resetIndex_labels (df : DataFrame) :
    (resetIndex df).rows.map Prod.fst =
      List.range (resetIndex df).rows.length := by
  show (df.rows.map Prod.snd).enum.map Prod.fst =
    List.range (df.rows.map Prod.snd).enum.length
  rw [List.enum_map_fst, List.enum_length]

theorem clean_no_na (df : DataFrame) :
    ∀ r ∈ (resetIndex (dropNaRows df)).rows, Val.na ∉ r.2 := by
  intro r hr
  rcases List.mem_map.mp (mem_resetIndex hr) with ⟨r0, hr0, hsnd⟩
  rcases mem_dropNaRows.mp hr0 with ⟨_, hna⟩
  rw [hsnd] at hna
  exact hna

theorem mem_imputeNumeric {df : DataFrame} {r' : Nat × List Val} :
    r' ∈ (imputeNumeric df).rows ↔
      ∃ r ∈ df.rows,
        r' = (r.1, r.2.enum.map (fun p => imputeCell df p.1 p.2)) := by
  constructor
  · intro h
    rcases List.mem_map.mp h with ⟨r, hr, heq⟩
    exact ⟨r, hr, heq.symm⟩
  · rintro ⟨r, hr, heq⟩
    exact heq ▸ List.mem_map_of_mem _ hr

theorem clean_row_length {raw : DataFrame}
    (hrect : ∀ r ∈ raw.rows, r.2.length = raw.cols.length) :
    ∀ r ∈ (resetIndex (dropNaRows (imputeNumeric raw))).rows,
      r.2.length = raw.cols.length := by
  intro r hr
  rcases List.mem_map.mp (mem_resetIndex hr) with ⟨r0, hr0, hsnd⟩
  rcases mem_dropNaRows.mp hr0 with ⟨hmem, _⟩
  rcases mem_imputeNumeric.mp hmem with ⟨r1, hr1, heq⟩
  rw [← hsnd, heq]
  simpa using hrect r1 hr1

theorem missingCensus_clean_zero {raw : DataFrame}
    (hrect : ∀ r ∈ raw.rows, r.2.length = raw.cols.length) :
    ∀ pr ∈ missingCensus (resetIndex (dropNaRows (imputeNumeric raw))),
      pr.2 = 0 := by
  intro pr hpr
  rcases List.mem_map.mp hpr with ⟨p, hp, hpr_eq⟩
  have hj : p.1 < raw.cols.length := by
    have h2 := List.mem_enum_iff_getElem?.mp hp
    exact (List.getElem?_eq_some.mp h2).1
  rw [← hpr_eq]
  show colNaCount _ p.1 = 0
  rw [colNaCount, List.countP_eq_zero]
  intro r hr
  have hlen : p.1 < r.2.length := by
    rw [clean_row_length hrect r hr]
    exact hj
  have hna := clean_no_na (imputeNumeric raw) r hr
  simp only [cellAt, List.getD_eq_getElem r.2 Val.na hlen, beq_iff_eq]
  intro hcell
  exact hna (hcell ▸ List.getElem_mem hlen)

/-! ## Claim C3: the census is computed on the raw table -/

/-- C3: for every successfully parsed (rectangular) file, the census
returned by `load_clean_data` is the per-column missing-cell count of
the RAW parsed table, even though the table returned alongside it has
a zero missing-cell census after cleaning. -/
theorem census_is_of_raw_table (f : UploadedFile) (raw : DataFrame)
    (hok : parseStep f = Except.ok raw)
    (hrect : ∀ r ∈ raw.rows, r.2.length = raw.cols.length) :
    (load_clean_data f).2.2 = missingCensus raw ∧
    (load_clean_data f).1 =
      some (resetIndex (dropNaRows (imputeNumeric raw))) ∧
    ∀ pr ∈ missingCensus (resetIndex (dropNaRows (imputeNumeric raw))),
      pr.2 = 0 := by
  rw [load_of_parse_ok hok]
  exact ⟨rfl, rfl, missingCensus_clean_zero hrect⟩

/-- The raw table used as loader witness data: numeric column `a` with
a missing cell, object column `b` with a missing cell. -/
def rawA : DataFrame :=
  ⟨[("a", Dtype.numeric), ("b", Dtype.object)],
   [(0, [Val.num 1, Val.str "x"]),
    (1, [Val.na, Val.str "y"]),
    (2, [Val.num 3, Val.na])]⟩

/-- The uploaded file whose parse yields `rawA`. -/
def fileA : UploadedFile := ⟨"f.csv", ParseOutcome.ok rawA⟩

/-- Witness for C3 at the concrete file `fileA`. -/
theorem census_is_of_raw_table_witness :
    (load_clean_data fileA).2.2 = missingCensus rawA ∧
    (load_clean_data fileA).1 =
      some (resetIndex (dropNaRows (imputeNumeric rawA))) ∧
    ∀ pr ∈ missingCensus (resetIndex (dropNaRows (imputeNumeric rawA))),
      pr.2 = 0 :=
  census_is_of_raw_table fileA rawA (by rfl) (by decide)

/-! ## Claim C4: the returned table is fully cleaned -/

/-- C4: for every successfully parsed file, `load_clean_data` returns
the table obtained by replacing each missing cell of a numeric column
with the mean of that column over its non-missing values (`imputeCell`),
dropping every row that still has a missing cell, and reindexing the
rows contiguously from zero; the result has no missing cell in any
row. -/
theorem cleaning_guarantee (f : UploadedFile) (raw : DataFrame)
    (hok : parseStep f = Except.ok raw) :
    (load_clean_data f).1 =
      some (resetIndex (dropNaRows (imputeNumeric raw))) ∧
    (∀ r ∈ (resetIndex (dropNaRows (imputeNumeric raw))).rows,
      Val.na ∉ r.2) ∧
    (resetIndex (dropNaRows (imputeNumeric raw))).rows.map Prod.fst =
      List.range (resetIndex (dropNaRows (imputeNumeric raw))).rows.length ∧
    List.Forall₂ (fun r r' : Nat × List Val =>
        r'.1 = r.1 ∧ r'.2.length = r.2.length ∧
        ∀ j, j < r.2.length →
          r'.2.getD j Val.na = imputeCell raw j (r.2.getD j Val.na))
      raw.rows (imputeNumeric raw).rows := by
  refine ⟨by rw [load_of_parse_ok hok], clean_no_na _, resetIndex_labels _, ?_⟩
  show List.Forall₂ _ raw.rows (raw.rows.map
    (fun r => (r.1, r.2.enum.map (fun p => imputeCell raw p.1 p.2))))
  rw [List.forall₂_map_right_iff]
  rw [List.forall₂_same]
  intro r _
  refine ⟨rfl, by simp, ?_⟩
  intro j hj
  have hlen : j < (r.2.enum.map (fun p => imputeCell raw p.1 p.2)).length := by
    simpa using hj
  rw [List.getD_eq_getElem _ Val.na hlen, List.getElem_map,
    List.getElem_enum, List.getD_eq_getElem r.2 Val.na hj]

/-- Witness for C4 at the concrete file `fileA`: the missing numeric
cell becomes the column mean 2, the row with the missing object cell
is dropped, and rows are relabelled from zero. -/
theorem cleaning_guarantee_witness :
    (load_clean_data fileA).1 =
      some (resetIndex (dropNaRows (imputeNumeric rawA))) ∧
    (∀ r ∈ (resetIndex (dropNaRows (imputeNumeric rawA))).rows,
      Val.na ∉ r.2) ∧
    (resetIndex (dropNaRows (imputeNumeric rawA))).rows.map Prod.fst =
      List.range (resetIndex (dropNaRows (imputeNumeric rawA))).rows.length ∧
    List.Forall₂ (fun r r' : Nat × List Val =>
        r'.1 = r.1 ∧ r'.2.length = r.2.length ∧
        ∀ j, j < r.2.length →
          r'.2.getD j Val.na = imputeCell rawA j (r.2.getD j Val.na))
      rawA.rows (imputeNumeric rawA).rows :=
  cleaning_guarantee fileA rawA (by rfl)

/-! ## Claim C5: failure reporting of the loader -/

/-- A CSV-named file whose parse raises a `ValueError` (as the pandas
parser errors do) with its own message. -/
def fileBadParse : UploadedFile := ⟨"data.csv", ParseOutcome.err true "boom"⟩

/-- C5 counterexample: for a parse failure whose exception is a
`ValueError`, `load_clean_data` reports the message carried by the exception,
not the generic invalid-file status the claim promises for every parse
failure of a supported extension. -/
theorem parse_valueerror_message_counterexample :
    load_clean_data fileBadParse = (none, "boom", []) ∧
    "boom" ≠ "No file uploaded. Please upload a valid CSV or Excel file." := by
  refine ⟨?_, ?_⟩ <;> decide

theorem parseStep_of_supported {f : UploadedFile}
    (h : strEndsWith f.name ".csv" = true ∨
         strEndsWith f.name ".xls" = true ∨
         strEndsWith f.name ".xlsx" = true) :
    parseStep f =
      match f.parseResult with
      | ParseOutcome.ok df => Except.ok df
      | ParseOutcome.err isVE m => Except.error (isVE, m) := by
  unfold parseStep
  rw [if_pos h]

theorem parseStep_of_unsupported {f : UploadedFile}
    (h : ¬(strEndsWith f.name ".csv" = true ∨
           strEndsWith f.name ".xls" = true ∨
           strEndsWith f.name ".xlsx" = true)) :
    parseStep f = Except.error (true,
      "Unsupported file format. Please upload a CSV or Excel file.") := by
  unfold parseStep
  rw [if_neg h]

/-- C5 (amended): `load_clean_data` never propagates an exception, and
every failure path returns the triple `(none, message, empty census)`:
an extension other than `.csv`/`.xls`/`.xlsx` yields the
unsupported-format message; a parse failure raising a `ValueError`
yields the message carried by that exception; any other parse failure yields
the generic invalid-file message. -/
theorem load_failure_paths (f : UploadedFile) (m : String) :
    (¬(strEndsWith f.name ".csv" = true ∨
       strEndsWith f.name ".xls" = true ∨
       strEndsWith f.name ".xlsx" = true) →
      load_clean_data f = (none,
        "Unsupported file format. Please upload a CSV or Excel file.",
        [])) ∧
    (f.parseResult = ParseOutcome.err true m →
      (strEndsWith f.name ".csv" = true ∨
       strEndsWith f.name ".xls" = true ∨
       strEndsWith f.name ".xlsx" = true) →
      load_clean_data f = (none, m, [])) ∧
    (f.parseResult = ParseOutcome.err false m →
      (strEndsWith f.name ".csv" = true ∨
       strEndsWith f.name ".xls" = true ∨
       strEndsWith f.name ".xlsx" = true) →
      load_clean_data f = (none,
        "No file uploaded. Please upload a valid CSV or Excel file.",
        [])) ∧
    ((load_clean_data f).1 = none → (load_clean_data f).2.2 = []) := by
  refine ⟨fun h => ?_, fun hp h => ?_, fun hp h => ?_, fun h => ?_⟩
  · simp [load_clean_data, parseStep_of_unsupported h]
  · have hps : parseStep f = Except.error (true, m) := by
      rw [parseStep_of_supported h, hp]
    simp [load_clean_data, hps]
  · have hps : parseStep f = Except.error (false, m) := by
      rw [parseStep_of_supported h, hp]
    simp [load_clean_data, hps]
  · rcases hps : parseStep f with e | raw
    · obtain ⟨isVE, msg⟩ := e
      by_cases hv : isVE = true <;> simp [load_clean_data, hps, hv]
    · rw [load_of_parse_ok hps] at h
      simp at h

/-- An uploaded file with an unsupported extension. -/
def fileTxt : UploadedFile := ⟨"data.txt", ParseOutcome.ok rawA⟩

/-- A CSV-named file whose parse raises a non-`ValueError` exception. -/
def fileOtherErr : UploadedFile := ⟨"d.csv", ParseOutcome.err false "oops"⟩

/-- Witness for the amended C5 theorem at concrete files. -/
theorem load_failure_paths_witness :
    load_clean_data fileTxt = (none,
      "Unsupported file format. Please upload a CSV or Excel file.",
      []) ∧
    load_clean_data fileOtherErr = (none,
      "No file uploaded. Please upload a valid CSV or Excel file.",
      []) ∧
    (load_clean_data fileOtherErr).2.2 = [] := by
  have h1 := load_failure_paths fileTxt "oops"
  have h2 := load_failure_paths fileOtherErr "oops"
  have ha := h1.1 (by decide)
  have hb := h2.2.2.1 rfl (by decide)
  exact ⟨ha, hb, h2.2.2.2 (by rw [hb])⟩

/-! ## Claim C6: the two-sigma scenario on [10,10,10,10,100] -/

/-- The table with one numeric column `v` holding 10,10,10,10,100. -/
def dfC6 : DataFrame :=
  ⟨[("v", Dtype.numeric)],
   [(0, [Val.num 10]), (1, [Val.num 10]), (2, [Val.num 10]),
    (3, [Val.num 10]), (4, [Val.num 100])]⟩

theorem dfC6_vals : columnVals dfC6 0 = [10, 10, 10, 10, 100] := by decide

theorem meanQ_dfC6 : meanQ (columnVals dfC6 0) = 28 := by
  rw [dfC6_vals]
  norm_num [meanQ]

theorem sampleVar_dfC6 : sampleVar (columnVals dfC6 0) = 1620 := by
  rw [dfC6_vals]
  have hm : meanQ ([10, 10, 10, 10, 100] : List ℚ) = 28 := by
    norm_num [meanQ]
  norm_num [sampleVar, hm]

/-- C6 counterexample: the two-sigma rule does NOT flag 100 on the
column `[10,10,10,10,100]`: the mean is 28 and the sample standard
deviation (pandas `ddof = 1`) is `√1620 ≈ 40.25`, so the strict upper
cutoff `28 + 2·√1620 ≈ 108.5` exceeds 100 (even with the population
deviation 36 the cutoff is exactly 100 and the comparison strict). -/
theorem two_sigma_flags_100_counterexample :
    ¬isTwoSigmaAnomaly (columnVals dfC6 0) 100 := by
  simp only [isTwoSigmaAnomaly, meanQ_dfC6, sampleVar_dfC6]
  have hc : ((1620 : ℚ) : ℝ) = (1620 : ℝ) := by norm_num
  rw [hc]
  push_cast
  intro hcon
  have hs : (0 : ℝ) ≤ Real.sqrt 1620 := Real.sqrt_nonneg _
  have hsq : Real.sqrt (1620 : ℝ) ^ 2 = 1620 := Real.sq_sqrt (by norm_num)
  rcases hcon with h | h
  · linarith
  · nlinarith [hs, hsq, h]

/-- C6 (amended): on the numeric column `[10,10,10,10,100]` the
two-sigma anomaly rule of `generate_trends_and_anomalies` flags no
value at all: every value of the column, 100 included, lies within the
closed band `[mean - 2*std, mean + 2*std]`. -/
theorem two_sigma_no_anomalies (q : ℚ) (hq : q ∈ columnVals dfC6 0) :
    ¬isTwoSigmaAnomaly (columnVals dfC6 0) q := by
  simp only [isTwoSigmaAnomaly, meanQ_dfC6, sampleVar_dfC6]
  have hc : ((1620 : ℚ) : ℝ) = (1620 : ℝ) := by norm_num
  rw [hc]
  have hs : (0 : ℝ) ≤ Real.sqrt 1620 := Real.sqrt_nonneg _
  have hsq : Real.sqrt (1620 : ℝ) ^ 2 = 1620 := Real.sq_sqrt (by norm_num)
  rw [dfC6_vals] at hq
  fin_cases hq <;>
  · push_cast
    intro hcon
    rcases hcon with h | h
    · nlinarith [hs, hsq, h]
    · nlinarith [hs, hsq, h]

/-- Witness for the amended C6 theorem at the value 10. -/
theorem two_sigma_no_anomalies_witness :
    ¬isTwoSigmaAnomaly (columnVals dfC6 0) 10 :=
  two_sigma_no_anomalies 10 (by decide)

end BIDash
